import Mathlib

/-!
# Verification of the GEO-Ready-Website audit pipeline

Shallow embedding of the scoring core of `src/geoaudit.js`
(`analyzeHtml`, `computeHintsFromHtml`, `calculateGeoScore`, and the
`countSyllables` helper).  HTML parsing itself is performed in the source
by the external `cheerio` library; following the spec's own data model we
embed the parsing layer as a `DocFacts` record holding exactly the values
the scoring code reads out of the parsed document, paired with the raw
HTML string (on which the source runs plain substring / regex scans).
JavaScript numbers are modelled by `Int`/`Rat` (`Math.round` as
`jsRound`), JS string truthiness by emptiness tests, and JSON values by
an explicit inductive type.
-/

namespace GeoAudit

/-- JavaScript `Math.round`: round half towards positive infinity. -/
def jsRound (q : ℚ) : ℤ := ⌊q + 1/2⌋

theorem jsRound_intCast (n : ℤ) : jsRound (n : ℚ) = n := by
  unfold jsRound
  rw [Int.floor_eq_iff]
  constructor
  · linarith
  · linarith

theorem jsRound_ofNat (n : ℕ) : jsRound (n : ℚ) = n := by
  have := jsRound_intCast (n : ℤ)
  push_cast at this ⊢
  exact this

theorem jsRound_eq_of (q : ℚ) (n : ℤ) (h1 : (n : ℚ) ≤ q + 1/2)
    (h2 : q + 1/2 < n + 1) : jsRound q = n := by
  unfold jsRound
  rw [Int.floor_eq_iff]
  exact ⟨h1, by linarith⟩

/-- Truthiness of a JS value that is either `undefined` (`none`) or a
string: `!!x` is true iff the string exists and is non-empty. -/
def jsTruthyStr : Option String → Bool
  | none => false
  | some s => !s.data.isEmpty

/-- `String.prototype.toLowerCase` (every string it is applied to in the
source is ASCII-relevant: attribute values and raw HTML). -/
def lowerStr (s : String) : List Char := s.data.map Char.toLower

/-- `pat` is a prefix of `s` (character-by-character). -/
def leadsWith : List Char → List Char → Bool
  | [], _ => true
  | _ :: _, [] => false
  | a :: as, b :: bs => a == b && leadsWith as bs

/-- `String.prototype.includes`: `pat` occurs as a contiguous substring. -/
def containsSub (pat : List Char) : List Char → Bool
  | [] => leadsWith pat []
  | c :: rest => leadsWith pat (c :: rest) || containsSub pat rest

/-- Number of non-overlapping occurrences of `pat`, scanning left to
right and resuming after each match — the semantics of
`s.match(/pat/g).length` for a literal pattern.  `fuel` is consumed one
unit per examined position; callers pass `s.length + 1`. -/
def countOccurAux (pat : List Char) : ℕ → List Char → ℕ
  | 0, _ => 0
  | _ + 1, [] => 0
  | f + 1, c :: rest =>
    if leadsWith pat (c :: rest) then
      1 + countOccurAux pat f (rest.drop (pat.length - 1))
    else
      countOccurAux pat f rest

def countOccur (pat s : List Char) : ℕ :=
  countOccurAux pat (s.length + 1) s

theorem leadsWith_nil_of_ne_nil (pat : List Char) (h : pat ≠ []) :
    leadsWith pat [] = false := by
  cases pat with
  | nil => exact absurd rfl h
  | cons a as => rfl

theorem countOccurAux_pos_iff (pat : List Char) (hpat : pat ≠ []) :
    ∀ (f : ℕ) (s : List Char), s.length < f →
      (0 < countOccurAux pat f s ↔ containsSub pat s = true) := by
  intro f
  induction f with
  | zero => intro s hs; omega
  | succ f ih =>
    intro s hs
    cases s with
    | nil =>
      simp [countOccurAux, containsSub, leadsWith_nil_of_ne_nil pat hpat]
    | cons c rest =>
      simp only [countOccurAux, containsSub]
      by_cases hl : leadsWith pat (c :: rest) = true
      · simp [hl]
      · simp only [List.length_cons] at hs
        have hrest : rest.length < f := by omega
        simp [hl, ih rest hrest]

theorem countOccur_pos_iff (pat s : List Char) (hpat : pat ≠ []) :
    0 < countOccur pat s ↔ containsSub pat s = true :=
  countOccurAux_pos_iff pat hpat (s.length + 1) s (Nat.lt_succ_self _)

/-- Collapse every whitespace run into a single space —
`s.replace(/\s+/g, ' ')`.  `prevWs` records whether the previous
character belonged to a whitespace run already emitted. -/
def collapseWsAux (prevWs : Bool) : List Char → List Char
  | [] => []
  | c :: rest =>
    if c.isWhitespace then
      if prevWs then collapseWsAux true rest
      else ' ' :: collapseWsAux true rest
    else c :: collapseWsAux false rest

/-- Drop leading and trailing whitespace — `String.prototype.trim`. -/
def listTrim (l : List Char) : List Char :=
  ((l.dropWhile Char.isWhitespace).reverse.dropWhile Char.isWhitespace).reverse

/-- `s.trim()` on a string value. -/
def trimStr (s : String) : List Char := listTrim s.data

/-- Insertion order of JS object keys / `Array.from(new Set(xs))`:
deduplicate preserving the first occurrence. -/
def dedupKeepFirst {α : Type} [BEq α] : List α → List α :=
  go []
where
  go (seen : List α) : List α → List α
    | [] => []
    | x :: xs => if seen.contains x then go seen xs else x :: go (x :: seen) xs

/-- `$('body').text().replace(/\s+/g, ' ').trim()`. -/
def collapseText (s : String) : List Char :=
  listTrim (collapseWsAux false s.data)

/-- Split at every single separator character; together with the
blank-segment filter applied by all call sites this yields the same
non-blank segments as JS `split` on a `[...]+` run regex (splitting on
a run instead of a single character only inserts extra empty segments,
which the filter removes). -/
def splitSeg (sep : Char → Bool) (cur : List Char) : List Char → List (List Char)
  | [] => [cur.reverse]
  | c :: rest =>
    if sep c then cur.reverse :: splitSeg sep [] rest
    else splitSeg sep (c :: cur) rest

/-- Word tokens: `split(/\s+/).filter(Boolean)` — the maximal
non-whitespace runs. -/
def tokensOf (l : List Char) : List (List Char) :=
  (splitSeg Char.isWhitespace [] l).filter (fun t => !t.isEmpty)

/-- Sentence count basis: `split(/[.!?]+/).filter(s => s.trim() != '')`. -/
def sentenceSegs (l : List Char) : List (List Char) :=
  (splitSeg (fun c => c == '.' || c == '!' || c == '?') [] l).filter
    (fun t => !(listTrim t).isEmpty)

/-! ## JSON values and JSON-LD blocks -/

/-- Result of `JSON.parse` on a well-formed document.  Objects carry an
association list of fields; `JSON.parse` never produces duplicate keys
(later duplicates in the input overwrite earlier ones), so field lookup
below may take the first hit. -/
inductive JsVal where
  | jnull : JsVal
  | jbool : Bool → JsVal
  | jnum : ℚ → JsVal
  | jstr : String → JsVal
  | jarr : List JsVal → JsVal
  | jobj : List (String × JsVal) → JsVal
deriving Repr

/-- JS truthiness of a parsed JSON value (`NaN` cannot come out of
`JSON.parse`, and `[]`/`{}` are truthy objects). -/
def jsTruthyVal : JsVal → Bool
  | .jnull => false
  | .jbool b => b
  | .jnum q => !(q == 0)
  | .jstr s => !s.isEmpty
  | .jarr _ => true
  | .jobj _ => true

/-- The runtime error a property access on `null` raises
(`TypeError: Cannot read properties of null`). -/
inductive JsError where
  | typeError : JsError
deriving Repr, DecidableEq

/-- Property access `v[k]`: on `null` it **throws** a `TypeError`; on an
object it yields the field value or `undefined` (`none`); on any other
value (string, number, boolean, array with a non-index key) boxing makes
it `undefined`, never an error. -/
def getField (v : JsVal) (k : String) : Except JsError (Option JsVal) :=
  match v with
  | .jnull => .error .typeError
  | .jobj fields => .ok ((fields.find? (fun p => p.1 == k)).map (·.2))
  | _ => .ok none

/-- JS `a || b` where `a` may be `undefined`. -/
def jsOrVal (a : Option JsVal) (b : JsVal) : JsVal :=
  match a with
  | some v => if jsTruthyVal v then v else b
  | none => b

/-- `typeof node === 'object' && node` — arrays and objects qualify,
`null` has object type but is falsy. -/
def isObjLike : JsVal → Bool
  | .jarr _ => true
  | .jobj _ => true
  | _ => false

/-- One `<script type="application/ld+json">` block's text content, as
classified by the source's `try { if (raw && raw.trim()) push(JSON.parse(raw)) }
catch { push('invalid-json') }`: blank text is skipped, well-formed JSON
is parsed (the external `JSON.parse`), anything else raises and is
replaced by the `'invalid-json'` sentinel. -/
inductive LdBlock where
  | blank : LdBlock
  | wellFormed : JsVal → LdBlock
  | malformed : LdBlock
deriving Repr

/-- Entry of the `jsonLdNodes` array: a parsed value or the
`'invalid-json'` sentinel string. -/
inductive LdNode where
  | parsed : JsVal → LdNode
  | invalid : LdNode
deriving Repr

def LdBlock.toNode : LdBlock → Option LdNode
  | .blank => none
  | .wellFormed v => some (.parsed v)
  | .malformed => some .invalid

def LdBlock.isMalformed : LdBlock → Bool
  | .blank => false
  | .wellFormed _ => false
  | .malformed => true

def LdBlock.isBlank : LdBlock → Bool
  | .blank => true
  | .wellFormed _ => false
  | .malformed => false

/-! ## Document facts (the values cheerio extraction yields) -/

/-- One `<meta>` element's `name` and `content` attributes. -/
structure MetaTag where
  name : Option String
  content : Option String
deriving Repr

/-- The structural facts the scoring code reads out of the parsed HTML
document — the spec's "Document Facts".  Each field corresponds to one
cheerio query in the source. -/
structure DocFacts where
  /-- `$('html').attr('lang')` -/
  langAttr : Option String
  /-- `$('meta[charset]').attr('charset')` -/
  charsetAttr : Option String
  /-- `$('meta[name="viewport"]').attr('content')` -/
  viewportContent : Option String
  /-- `$('title').text()` -/
  titleText : String
  /-- `$('meta[name="description"]').attr('content')` -/
  descContent : Option String
  /-- `$('h1').length` -/
  h1Count : ℕ
  /-- `$('link[rel="canonical"]').attr('href')` -/
  canonicalHref : Option String
  /-- `$('meta[name="robots"]').attr('content')` -/
  robotsContent : Option String
  /-- the JSON-LD script blocks, in document order -/
  ldBlocks : List LdBlock
  /-- every `<meta>` element, in document order -/
  metaTags : List MetaTag
  /-- the `alt` attribute of every `<img>`, in document order -/
  imgAlts : List (Option String)
  /-- `$('body').text()` -/
  bodyTextRaw : String
  /-- levels of `h1..h6` elements, in document order -/
  headingLevels : List ℕ
  /-- `$(p).text()` for every `<p>`, in document order -/
  paraTexts : List String
  /-- `$('header,nav,main,footer,article,section').length` -/
  semanticCount : ℕ
  /-- `$('[aria-label],[role],[aria-labelledby],[aria-describedby]').length` -/
  ariaSelCount : ℕ
deriving Repr

/-- An input to the pipeline: the raw HTML string together with the
facts cheerio extracts from it.  The raw string feeds the plain
substring/regex scans of `computeHintsFromHtml`. -/
structure HtmlInput where
  raw : String
  facts : DocFacts
deriving Repr

/-! ## The rubric scorer: `analyzeHtml` -/

/-- The fixed `WEIGHTS` table (missing keys default to `0` via
`WEIGHTS[key] || 0`). -/
def WEIGHTS (k : String) : ℤ :=
  if k = "lang" then 5 else if k = "charset" then 3 else
  if k = "viewport" then 4 else if k = "title" then 10 else
  if k = "description" then 10 else if k = "h1" then 6 else
  if k = "canonical" then 8 else if k = "robots" then 8 else
  if k = "json_ld" then 12 else if k = "local_schema" then 12 else
  if k = "images_alt" then 6 else if k = "geo" then 16 else 0

theorem WEIGHTS_lang : WEIGHTS "lang" = 5 := rfl
theorem WEIGHTS_charset : WEIGHTS "charset" = 3 := rfl
theorem WEIGHTS_viewport : WEIGHTS "viewport" = 4 := rfl
theorem WEIGHTS_title : WEIGHTS "title" = 10 := rfl
theorem WEIGHTS_description : WEIGHTS "description" = 10 := rfl
theorem WEIGHTS_h1 : WEIGHTS "h1" = 6 := rfl
theorem WEIGHTS_canonical : WEIGHTS "canonical" = 8 := rfl
theorem WEIGHTS_robots : WEIGHTS "robots" = 8 := rfl
theorem WEIGHTS_json_ld : WEIGHTS "json_ld" = 12 := rfl
theorem WEIGHTS_local_schema : WEIGHTS "local_schema" = 12 := rfl
theorem WEIGHTS_images_alt : WEIGHTS "images_alt" = 6 := rfl
theorem WEIGHTS_geo : WEIGHTS "geo" = 16 := rfl

/-- One rubric entry, as recorded by `addCheck`:
`{ ok: !!ok, points: ok ? pointsIfOk : 0, max_points: WEIGHTS[key] }`. -/
structure CheckResult where
  ok : Bool
  points : ℤ
  maxPoints : ℤ
deriving Repr, DecidableEq

/-- `addCheck`'s result record (totals and suggestions are accumulated
by `analyzeHtml` below, in call order). -/
def mkCheck (ok : Bool) (pointsIfOk maxPts : ℤ) : CheckResult :=
  { ok := ok, points := if ok then pointsIfOk else 0, maxPoints := maxPts }

theorem mkCheck_points_le (ok : Bool) (p m : ℤ) (hp : p ≤ m) (hm : 0 ≤ m) :
    (mkCheck ok p m).points ≤ m := by
  cases ok <;> simp [mkCheck] <;> assumption

theorem mkCheck_maxPoints (ok : Bool) (p m : ℤ) :
    (mkCheck ok p m).maxPoints = m := rfl

/-- `addCheck('lang', !!$('html').attr('lang'), WEIGHTS.lang, ...)`. -/
def checkLang (f : DocFacts) : CheckResult :=
  mkCheck (jsTruthyStr f.langAttr) (WEIGHTS "lang") (WEIGHTS "lang")

/-- `addCheck('charset', !!$('meta[charset]').attr('charset'), WEIGHTS.charset, ...)`. -/
def checkCharset (f : DocFacts) : CheckResult :=
  mkCheck (jsTruthyStr f.charsetAttr) (WEIGHTS "charset") (WEIGHTS "charset")

/-- `addCheck('viewport', !!$('meta[name="viewport"]').attr('content'), ...)`. -/
def checkViewport (f : DocFacts) : CheckResult :=
  mkCheck (jsTruthyStr f.viewportContent) (WEIGHTS "viewport") (WEIGHTS "viewport")

/-- `const title = ($('title').text() || '').trim()`. -/
def titleTrimmed (f : DocFacts) : List Char := trimStr f.titleText

/-- `addCheck('title', title.length >= 10, WEIGHTS.title, ...)`. -/
def checkTitle (f : DocFacts) : CheckResult :=
  mkCheck (decide (10 ≤ (titleTrimmed f).length)) (WEIGHTS "title") (WEIGHTS "title")

/-- `const desc = ($('meta[name="description"]').attr('content') || '').trim()`. -/
def descTrimmed (f : DocFacts) : List Char := trimStr (f.descContent.getD "")

/-- `addCheck('description', desc.length >= 20,
(desc.length >= 50 && desc.length <= 160) ? WEIGHTS.description
: Math.round(WEIGHTS.description / 2), ...)`. -/
def checkDescription (f : DocFacts) : CheckResult :=
  let len := (descTrimmed f).length
  mkCheck (decide (20 ≤ len))
    (if 50 ≤ len ∧ len ≤ 160 then WEIGHTS "description"
     else jsRound ((WEIGHTS "description" : ℚ) / 2))
    (WEIGHTS "description")

/-- `addCheck('h1', h1Count >= 1,
h1Count === 1 ? WEIGHTS.h1 : Math.round(WEIGHTS.h1 * 0.5), ...)`. -/
def checkH1 (f : DocFacts) : CheckResult :=
  mkCheck (decide (1 ≤ f.h1Count))
    (if f.h1Count = 1 then WEIGHTS "h1"
     else jsRound ((WEIGHTS "h1" : ℚ) * 0.5))
    (WEIGHTS "h1")

/-- `addCheck('canonical', !!canonical, WEIGHTS.canonical, ...)`. -/
def checkCanonical (f : DocFacts) : CheckResult :=
  mkCheck (jsTruthyStr f.canonicalHref) (WEIGHTS "canonical") (WEIGHTS "canonical")

/-- `const robots = (($('meta[name="robots"]').attr('content') || '')).toLowerCase()`. -/
def robotsLower (f : DocFacts) : List Char := lowerStr (f.robotsContent.getD "")

/-- `addCheck('robots', !robots.includes('noindex'), WEIGHTS.robots, ...)`. -/
def checkRobots (f : DocFacts) : CheckResult :=
  mkCheck (!containsSub "noindex".data (robotsLower f))
    (WEIGHTS "robots") (WEIGHTS "robots")

/-- The `jsonLdNodes` array (parsed values and `'invalid-json'`
sentinels; blank blocks are skipped). -/
def jsonLdNodesOf (f : DocFacts) : List LdNode :=
  f.ldBlocks.filterMap LdBlock.toNode

/-- `addCheck('json_ld', jsonLdNodes.length > 0, WEIGHTS.json_ld, ...)`. -/
def checkJsonLd (f : DocFacts) : CheckResult :=
  mkCheck (decide (0 < (jsonLdNodesOf f).length)) (WEIGHTS "json_ld") (WEIGHTS "json_ld")

/-- `/localbusiness|organization|place/i.test(t)`. -/
def localTypeTest (t : String) : Bool :=
  let l := lowerStr t
  containsSub "localbusiness".data l || containsSub "organization".data l ||
    containsSub "place".data l

/-- Body of the `local_schema` inspection loop for one array item `n`:
`const t = n['@type'] || n.type || ''; if (typeof t === 'string' &&
regex.test(t)) hasLocal = true; if (n.address || n.telephone) hasLocal =
true`.  When `n` is `null` the very first access `n['@type']` throws a
`TypeError` that nothing catches.  (The JS `||` and `if` short-circuits
skip some of the later accesses, but property access on a non-`null`
value has no effect, so sequencing all four is observationally
identical.) -/
def itemLocal (n : JsVal) : Except JsError Bool :=
  match getField n "@type" with
  | .error e => .error e
  | .ok f1 =>
    match getField n "type" with
    | .error e => .error e
    | .ok f2 =>
      let t := jsOrVal f1 (jsOrVal f2 (.jstr ""))
      let tMatch : Bool :=
        match t with
        | .jstr s => localTypeTest s
        | _ => false
      match getField n "address" with
      | .error e => .error e
      | .ok addr =>
        match getField n "telephone" with
        | .error e => .error e
        | .ok tel =>
          .ok (tMatch ||
            (addr.elim false jsTruthyVal || tel.elim false jsTruthyVal))

/-- `const arr = Array.isArray(node) ? node : [node]`. -/
def nodeArr : JsVal → List JsVal
  | .jarr xs => xs
  | v => [v]

/-- Sequential or-accumulating loop over a list, propagating the first
raised error.  The source loop never breaks early on a `true`, so the
remaining elements are still visited (and can still throw) after the
flag is set. -/
def listAnyE {α : Type} (f : α → Except JsError Bool) :
    List α → Except JsError Bool
  | [] => .ok false
  | x :: xs =>
    match f x with
    | .error e => .error e
    | .ok b =>
      match listAnyE f xs with
      | .error e => .error e
      | .ok rest => .ok (b || rest)

/-- `if (node && typeof node === 'object') { const arr = ...; for (const
n of arr) ... }` — the `'invalid-json'` sentinel has string type and is
skipped; a `null` node is falsy and skipped; a single non-array node is
wrapped, so only `null` **elements of a parsed array** can be
dereferenced and throw. -/
def nodeLocal : LdNode → Except JsError Bool
  | .invalid => .ok false
  | .parsed v =>
    if isObjLike v then listAnyE itemLocal (nodeArr v) else .ok false

/-- The whole `hasLocal` loop over `jsonLdNodes`: `ok b` when the loop
completes with flag `b`, `error` when it raises. -/
def hasLocalE (f : DocFacts) : Except JsError Bool :=
  listAnyE nodeLocal (jsonLdNodesOf f)

/-- The `hasLocal` flag of a **completed** (non-raising) run.  On a
raising input `analyzeHtml` never produces a report (see `analyzeHtmlE`
below), so the `false` default here is unobservable through it. -/
def hasLocalOf (f : DocFacts) : Bool :=
  match hasLocalE f with
  | .ok b => b
  | .error _ => false

/-- `addCheck('local_schema', hasLocal, WEIGHTS.local_schema, ...)`. -/
def checkLocalSchema (f : DocFacts) : CheckResult :=
  mkCheck (hasLocalOf f) (WEIGHTS "local_schema") (WEIGHTS "local_schema")

/-- `imgs.filter(i => ($(i).attr('alt') || '').trim().length > 0).length`. -/
def withAltCount (alts : List (Option String)) : ℕ :=
  (alts.filter (fun a => !(trimStr (a.getD "")).isEmpty)).length

/-- `const ratio = withAlt / imgs.length` (only used when `imgs.length > 0`). -/
def imagesAltRatioOf (f : DocFacts) : ℚ :=
  (withAltCount f.imgAlts : ℚ) / (f.imgAlts.length : ℚ)

/-- The two `images_alt` branches: zero images auto-pass at full weight,
otherwise `addCheck('images_alt', ratio >= 0.8,
Math.round(WEIGHTS.images_alt * (ratio >= 0.8 ? 1 : ratio)), ...)`. -/
def checkImagesAlt (f : DocFacts) : CheckResult :=
  if f.imgAlts.length = 0 then
    mkCheck true (WEIGHTS "images_alt") (WEIGHTS "images_alt")
  else
    let ratio := imagesAltRatioOf f
    mkCheck (decide ((0.8 : ℚ) ≤ ratio))
      (jsRound ((WEIGHTS "images_alt" : ℚ) * (if (0.8 : ℚ) ≤ ratio then 1 else ratio)))
      (WEIGHTS "images_alt")

/-! ### Geo signals: meta names, phone-like and coordinate-like matches -/

/-- The `geoMeta` object: for every `<meta>`, take
`name = (($(el).attr('name') || '') + '').toLowerCase()` and keep it when
`name.startsWith('geo') || name === 'og:locale' || name === 'og:site_name'`;
assignment into a JS object keeps the first insertion position per key and
overwrites the value, so the key set is the deduplicated name list. -/
def geoMetaKeysOf (f : DocFacts) : List String :=
  (dedupKeepFirst (f.metaTags.filterMap (fun m =>
    let nm := lowerStr (m.name.getD "")
    if leadsWith "geo".data nm || nm = "og:locale".data || nm = "og:site_name".data
    then some nm else none))).map List.asString

/-- Character class `[\d\-\s]` of the phone regex. -/
def phoneClassC (c : Char) : Bool := c.isDigit || c == '-' || c.isWhitespace

/-- Greedy end of `[\d\-\s]{6,}\d` inside the maximal class run `run`:
the largest index `k ≥ 6` of `run` holding a digit (the regex consumes
`k` class characters, then the digit at index `k`). -/
def lastDigitIdx (run : List Char) : Option ℕ :=
  ((List.range run.length).filter (fun k =>
    decide (6 ≤ k) &&
      (match run.get? k with
       | some ch => ch.isDigit
       | none => false))).getLast?

/-- Length of a match of `\d[\d\-\s]{6,}\d` at the head of `s`, if any. -/
def phoneCore : List Char → Option ℕ
  | [] => none
  | c :: rest =>
    if c.isDigit then
      match lastDigitIdx (rest.takeWhile phoneClassC) with
      | some k => some (k + 2)
      | none => none
    else none

/-- Length of a match of `\+?\d[\d\-\s]{6,}\d` at the head of `s`:
the optional `+` is consumed greedily; if the rest fails, the fallback
branch would need `\d` to match `'+'`, which is impossible. -/
def phoneAt (s : List Char) : Option ℕ :=
  match s with
  | '+' :: rest => (phoneCore rest).map (· + 1)
  | _ => phoneCore s

/-- `[...bodyText.matchAll(/(\+?\d[\d\-\s]{6,}\d)/g)].map(m => m[0])`:
scan left to right, at each failing position advance one character, and
resume after the end of each match.  `fuel` bounds the number of steps;
callers pass `s.length + 1` (every step consumes at least one character). -/
def phoneScanAux : ℕ → List Char → List (List Char)
  | 0, _ => []
  | _ + 1, [] => []
  | fuel + 1, c :: rest =>
    match phoneAt (c :: rest) with
    | some len => (c :: rest).take len :: phoneScanAux fuel ((c :: rest).drop len)
    | none => phoneScanAux fuel rest

def phoneMatchesOf (f : DocFacts) : List String :=
  (phoneScanAux (f.bodyTextRaw.data.length + 1) f.bodyTextRaw.data).map List.asString

/-- Parse `-?\d+\.\d+` at the head of `s`; returns the matched
characters and the rest.  Both `\d+` are effectively deterministic:
shrinking a maximal digit run leaves a digit where a non-digit
(`.` / `\s` / `,`) is required, so no backtracking alternative exists. -/
def parseSignedDec (s : List Char) : Option (List Char × List Char) :=
  let (sgn, s1) : List Char × List Char :=
    match s with
    | '-' :: r => (['-'], r)
    | _ => ([], s)
  let d1 := s1.takeWhile Char.isDigit
  if d1.isEmpty then none
  else
    match s1.drop d1.length with
    | '.' :: s2 =>
      let d2 := s2.takeWhile Char.isDigit
      if d2.isEmpty then none
      else some (sgn ++ d1 ++ '.' :: d2, s2.drop d2.length)
    | _ => none

/-- Match `(-?\d+\.\d+)\s*,\s*(-?\d+\.\d+)` at the head of `s`; returns
the consumed length and the `` `${m[1]},${m[2]}` `` payload. -/
def coordAt (s : List Char) : Option (ℕ × List Char) :=
  match parseSignedDec s with
  | none => none
  | some (n1, r1) =>
    match r1.dropWhile Char.isWhitespace with
    | ',' :: r3 =>
      match parseSignedDec (r3.dropWhile Char.isWhitespace) with
      | none => none
      | some (n2, r5) => some (s.length - r5.length, n1 ++ ',' :: n2)
    | _ => none

/-- `[...bodyText.matchAll(/(-?\d+\.\d+)\s*,\s*(-?\d+\.\d+)/g)]
.map(m => `${m[1]},${m[2]}`)`, same scanning discipline as the phones. -/
def coordScanAux : ℕ → List Char → List (List Char)
  | 0, _ => []
  | _ + 1, [] => []
  | fuel + 1, c :: rest =>
    match coordAt (c :: rest) with
    | some (len, payload) => payload :: coordScanAux fuel ((c :: rest).drop len)
    | none => coordScanAux fuel rest

def coordMatchesOf (f : DocFacts) : List String :=
  (coordScanAux (f.bodyTextRaw.data.length + 1) f.bodyTextRaw.data).map List.asString

/-- `const hasGeo = Object.keys(geoMeta).length > 0 ||
phoneMatches.length > 0 || coordMatches.length > 0`. -/
def hasGeoOf (f : DocFacts) : Bool :=
  decide (0 < (geoMetaKeysOf f).length) ||
    decide (0 < (phoneMatchesOf f).length) ||
    decide (0 < (coordMatchesOf f).length)

/-- `addCheck('geo', hasGeo, WEIGHTS.geo, ...)`. -/
def checkGeo (f : DocFacts) : CheckResult :=
  mkCheck (hasGeoOf f) (WEIGHTS "geo") (WEIGHTS "geo")

/-! ### Suggestions, totals and the report record -/

/-- A failing check's entry in `report.suggestions`
(`{ key, priority, advice }`; the free-form `detail` payload is not
re-modelled, no downstream code reads it). -/
structure Suggestion where
  key : String
  priority : String
  advice : String
deriving Repr, DecidableEq

/-- `const prioMap = { high: 3, medium: 2, low: 1 }` (only these three
priority strings occur in the source). -/
def prioMap (p : String) : ℤ :=
  if p = "high" then 3 else if p = "medium" then 2 else if p = "low" then 1 else 0

/-- Insert into a list sorted by descending priority.  `x` goes in front
of the first entry of equal or lower priority: in the right-fold below
the already-sorted tail holds only entries that came **after** `x` in
the original list, so placing `x` before its equal-priority peers keeps
the original order on ties. -/
def insertByPrio (x : Suggestion) : List Suggestion → List Suggestion
  | [] => [x]
  | y :: ys =>
    if prioMap y.priority ≤ prioMap x.priority then x :: y :: ys
    else y :: insertByPrio x ys

/-- `suggestions.sort((a, b) => prioMap[b.priority] - prioMap[a.priority])`:
`Array.prototype.sort` is stable (ES2019), so equal-priority suggestions
keep their original check order — modelled by a stable insertion sort. -/
def sortSuggestions : List Suggestion → List Suggestion
  | [] => []
  | x :: xs => insertByPrio x (sortSuggestions xs)

/-- The suggestions pushed by the `addCheck` calls, in call order: one
entry per failing check that carries an advice string (every call passes
one except the zero-images branch, whose check passes anyway). -/
def rawSuggestions (f : DocFacts) : List Suggestion :=
  (if (checkLang f).ok then [] else
    [⟨"lang", "low", "Add <html lang=\"...\"> (BCP47)"⟩]) ++
  (if (checkCharset f).ok then [] else
    [⟨"charset", "low", "Add <meta charset=\"utf-8\">"⟩]) ++
  (if (checkViewport f).ok then [] else
    [⟨"viewport", "low", "Add viewport meta"⟩]) ++
  (if (checkTitle f).ok then [] else
    [⟨"title", "high", "Keep title 30-60 chars"⟩]) ++
  (if (checkDescription f).ok then [] else
    [⟨"description", "high", "Meta description 50-160 chars"⟩]) ++
  (if (checkH1 f).ok then [] else
    [⟨"h1", "medium", "Exactly one H1 preferred"⟩]) ++
  (if (checkCanonical f).ok then [] else
    [⟨"canonical", "high", "Add canonical link"⟩]) ++
  (if (checkRobots f).ok then [] else
    [⟨"robots", "high", "Remove noindex if you want indexing"⟩]) ++
  (if (checkJsonLd f).ok then [] else
    [⟨"json_ld", "medium", "Add JSON-LD structured data"⟩]) ++
  (if (checkLocalSchema f).ok then [] else
    [⟨"local_schema", "high", "Add LocalBusiness schema with address/telephone"⟩]) ++
  (if (checkImagesAlt f).ok then [] else
    [⟨"images_alt", "medium", "Add alt attributes for images (aim >=80%)"⟩]) ++
  (if (checkGeo f).ok then [] else
    [⟨"geo", "medium", "Add geo meta / phone / coords for local signals"⟩])

/-- The per-key check results of one run (`report.checks`). -/
structure Checks where
  lang : CheckResult
  charset : CheckResult
  viewport : CheckResult
  title : CheckResult
  description : CheckResult
  h1 : CheckResult
  canonical : CheckResult
  robots : CheckResult
  jsonLd : CheckResult
  localSchema : CheckResult
  imagesAlt : CheckResult
  geo : CheckResult
deriving Repr, DecidableEq

/-- The Rubric Report.  `total_awarded` / `total_possible` are the
running sums accumulated by the twelve `addCheck` calls; `score` is
`summary.score = Math.round((total_awarded / (total_possible || 1)) *
10000) / 100`.  The detail payloads read by later pipeline stages are
carried explicitly: `jsonLdCount` (`checks.json_ld.detail.count`),
`geoPhones` / `geoCoords` (`checks.geo.detail.phones/coords`, capped to
3) and `geoMetaKeys` (the key set of `checks.geo.detail.geoMeta`). -/
structure Report where
  checks : Checks
  jsonLdCount : ℕ
  geoPhones : List String
  geoCoords : List String
  geoMetaKeys : List String
  total_awarded : ℤ
  total_possible : ℤ
  score : ℚ
  suggestions : List Suggestion
deriving Repr, DecidableEq

/-- `analyzeHtml`: the twelve `addCheck` calls in source order, the
accumulated totals, the summary score and the priority-sorted
suggestions. -/
def analyzeHtml (inp : HtmlInput) : Report :=
  let f := inp.facts
  let cs : Checks :=
    { lang := checkLang f
      charset := checkCharset f
      viewport := checkViewport f
      title := checkTitle f
      description := checkDescription f
      h1 := checkH1 f
      canonical := checkCanonical f
      robots := checkRobots f
      jsonLd := checkJsonLd f
      localSchema := checkLocalSchema f
      imagesAlt := checkImagesAlt f
      geo := checkGeo f }
  let ta := cs.lang.points + cs.charset.points + cs.viewport.points +
    cs.title.points + cs.description.points + cs.h1.points +
    cs.canonical.points + cs.robots.points + cs.jsonLd.points +
    cs.localSchema.points + cs.imagesAlt.points + cs.geo.points
  let tp := cs.lang.maxPoints + cs.charset.maxPoints + cs.viewport.maxPoints +
    cs.title.maxPoints + cs.description.maxPoints + cs.h1.maxPoints +
    cs.canonical.maxPoints + cs.robots.maxPoints + cs.jsonLd.maxPoints +
    cs.localSchema.maxPoints + cs.imagesAlt.maxPoints + cs.geo.maxPoints
  -- `const totalPossible = report.total_possible || 1`
  let tpDef : ℤ := if tp = 0 then 1 else tp
  { checks := cs
    jsonLdCount := (jsonLdNodesOf f).length
    geoPhones := (phoneMatchesOf f).take 3
    geoCoords := (coordMatchesOf f).take 3
    geoMetaKeys := geoMetaKeysOf f
    total_awarded := ta
    total_possible := tp
    score := (jsRound ((ta : ℚ) / (tpDef : ℚ) * 10000) : ℚ) / 100
    suggestions := sortSuggestions (rawSuggestions f) }

/-- The `analyzeHtml` **run**: the only uncaught exception in the
function is the `TypeError` the `local_schema` loop raises on a `null`
element of a parsed JSON-LD array (the surrounding `try`/`catch` covers
only the `JSON.parse` calls).  When that loop raises, the function
aborts and no report escapes; otherwise the completed report is the one
`analyzeHtml` above describes. -/
def analyzeHtmlE (inp : HtmlInput) : Except JsError Report :=
  match hasLocalE inp.facts with
  | .error e => .error e
  | .ok _ => .ok (analyzeHtml inp)

/-! ## `countSyllables` and the readability metrics -/

/-- `const vowels = 'aeiouy'`. -/
def isVowelC (c : Char) : Bool :=
  c == 'a' || c == 'e' || c == 'i' || c == 'o' || c == 'u' || c == 'y'

/-- `word.toLowerCase().replace(/[^a-z]/g, '')`. -/
def cleanWord (w : String) : List Char :=
  (w.data.map Char.toLower).filter (fun c => 'a' ≤ c && c ≤ 'z')

/-- The counting loop: `for (ch of word) { const isV = vowels.includes(ch);
if (isV && !prev) syll++; prev = isV; }`. -/
def syllLoop (prev : Bool) : List Char → ℕ
  | [] => 0
  | c :: rest =>
    (if isVowelC c && !prev then 1 else 0) + syllLoop (isVowelC c) rest

/-- `countSyllables` (identical in `computeHintsFromHtml` and
`advancedAnalysis`): clean the word, return 0 when nothing is left,
count vowel groups, apply `if (word.endsWith('e')) syll = Math.max(1,
syll - 1)` and the final `if (syll === 0) syll = 1` floor. -/
def countSyllables (w : String) : ℕ :=
  let word := cleanWord w
  if word.isEmpty then 0
  else
    let syll := syllLoop false word
    let syll := if word.getLast? == some 'e' then max 1 (syll - 1) else syll
    if syll = 0 then 1 else syll

/-- Specification-level count of vowel groups: a vowel whose predecessor
is absent or not a vowel opens a group. -/
def vgAfter (prev : Char) : List Char → ℕ
  | [] => 0
  | c :: rest => (if isVowelC c && !isVowelC prev then 1 else 0) + vgAfter c rest

def vowelGroups : List Char → ℕ
  | [] => 0
  | c :: rest => (if isVowelC c then 1 else 0) + vgAfter c rest

theorem syllLoop_eq_vgAfter (prev : Char) (l : List Char) :
    syllLoop (isVowelC prev) l = vgAfter prev l := by
  induction l generalizing prev with
  | nil => rfl
  | cons c rest ih => simp [syllLoop, vgAfter, ih c]

theorem syllLoop_false_eq_vowelGroups (l : List Char) :
    syllLoop false l = vowelGroups l := by
  cases l with
  | nil => rfl
  | cons c rest =>
    simp only [syllLoop, vowelGroups, syllLoop_eq_vgAfter c rest]
    cases h : isVowelC c <;> simp [h]

/-! ## `computeHintsFromHtml` -/

/-- JS `\w` class, `[A-Za-z0-9_]`. -/
def isWordC (c : Char) : Bool := c.isAlphanum || c == '_'

/-- `[a-z]` run at the head of the list. -/
def lowerRun (l : List Char) : List Char := l.takeWhile Char.isLower

/-- Tail of the entity regex after a completed `[a-z]{2,}` run: match
`(?:\s[A-Z][a-z]{2,})*\b` greedily with backtracking, returning the
extra length consumed.  Greedy semantics: try to extend with one more
`\s[A-Z][a-z]{2,}` group and recurse; if that fails, fall back to the
word boundary `\b` at the current position (the previous character is a
lowercase letter, so the boundary holds iff the next character is absent
or a non-word character).  Shrinking a maximal `[a-z]{2,}` run can never
help, because the character after a shorter run is a lowercase letter,
on which both `\s` and `\b` fail.  `fuel ≥ remaining length` suffices as
every recursive call consumes at least one character. -/
def entTail : ℕ → List Char → Option ℕ
  | _, [] => some 0
  | 0, _ :: _ => none
  | fuel + 1, c :: rest =>
    let tryGroup : Option ℕ :=
      if c.isWhitespace then
        match rest with
        | u :: rest2 =>
          if u.isUpper then
            let run := lowerRun rest2
            if 2 ≤ run.length then
              (entTail fuel (rest2.drop run.length)).map (fun n => n + 2 + run.length)
            else none
          else none
        | [] => none
      else none
    match tryGroup with
    | some n => some n
    | none => if isWordC c then none else some 0

/-- Length of a match of `[A-Z][a-z]{2,}(?:\s[A-Z][a-z]{2,})*\b` at the
head of `s` (the leading `\b` is handled by the scanner). -/
def entAt (fuel : ℕ) : List Char → Option ℕ
  | [] => none
  | c :: rest =>
    if c.isUpper then
      let run := lowerRun rest
      if 2 ≤ run.length then
        (entTail fuel (rest.drop run.length)).map (fun n => 1 + run.length + n)
      else none
    else none

/-- `[...bodyText.matchAll(/\b([A-Z][a-z]{2,}(?:\s[A-Z][a-z]{2,})*)\b/g)]`:
`prevWord` tracks whether the previous character is a word character
(for the leading `\b`); matches resume after their end (the last matched
character is a lowercase letter, a word character). -/
def entScanAux : ℕ → Bool → List Char → List (List Char)
  | 0, _, _ => []
  | _ + 1, _, [] => []
  | fuel + 1, prevWord, c :: rest =>
    if !prevWord && c.isUpper then
      match entAt (rest.length + 1) (c :: rest) with
      | some len => (c :: rest).take len :: entScanAux fuel true ((c :: rest).drop len)
      | none => entScanAux fuel (isWordC c) rest
    else entScanAux fuel (isWordC c) rest

def entityMatches (l : List Char) : List String :=
  (entScanAux (l.length + 1) false l).map List.asString

/-- `/rel\s*=\s*["']alternate["']\s+hreflang/.test(htmlLower)`: the two
quote characters are matched independently, and both `\s*`/`\s+` runs
are deterministic (after a maximal whitespace run the required literal
is not whitespace). -/
def relAlternateAt (s : List Char) : Bool :=
  if leadsWith "rel".data s then
    match (s.drop 3).dropWhile Char.isWhitespace with
    | '=' :: r1 =>
      match r1.dropWhile Char.isWhitespace with
      | q1 :: r2 =>
        if (q1 == '"' || q1 == '\'') && leadsWith "alternate".data r2 then
          match r2.drop 9 with
          | q2 :: r3 =>
            if q2 == '"' || q2 == '\'' then
              let ws := r3.takeWhile Char.isWhitespace
              if ws.isEmpty then false
              else leadsWith "hreflang".data (r3.drop ws.length)
            else false
          | [] => false
        else false
      | [] => false
    | _ => false
  else false

def relAlternateTest : List Char → Bool
  | [] => relAlternateAt []
  | c :: rest => relAlternateAt (c :: rest) || relAlternateTest rest

/-- `foundFiles` of `computeHintsFromHtml` (regex probes over the
lowercased raw HTML; `/llms?\.txt/` matches `llm.txt` or `llms.txt`). -/
structure FoundFiles where
  llmsTxt : Bool
  robotsTxt : Bool
  hreflang : Bool
deriving Repr, DecidableEq

/-- The object returned by `computeHintsFromHtml` (nested sub-objects
flattened: `readability.{flesch,label}`, `accessibility.{imagesAltRatio,
ariaPresent}`, `contentQuality.{paraCount,avgWordsPerPara,contentQuality}`). -/
structure Hints where
  foundFiles : FoundFiles
  headingIssues : List String
  flesch : ℤ
  readabilityLabel : String
  metadataQuality : String
  semanticCount : ℕ
  imagesAltRatio : ℚ
  ariaPresent : Bool
  paraCount : ℕ
  avgWordsPerPara : ℤ
  contentQualityLabel : String
  jsonLdCount : ℕ
  topEntities : List String
  hreflangCount : ℕ
deriving Repr, DecidableEq

/-- `Skipped heading level (H« last » → H« cur »)`. -/
def skipMsg (last cur : ℕ) : String :=
  "Skipped heading level (H" ++ toString last ++ " → H" ++ toString cur ++ ")"

/-- The pairwise walk `for (i = 1; ...) { if (cur - last > 1) push(msg);
last = cur; }`. -/
def headingWalk (last : ℕ) : List ℕ → List String
  | [] => []
  | cur :: rest =>
    (if last + 1 < cur then [skipMsg last cur] else []) ++ headingWalk cur rest

/-- `headingIssues` (the `headings.length > 1` guard is redundant for a
singleton list, where the walk is empty anyway). -/
def headingIssuesOf (levels : List ℕ) : List String :=
  match levels with
  | [] => []
  | l0 :: rest => headingWalk l0 rest

/-- `const wordsArr = bodyText.split(/\s+/).filter(w => w.trim().length > 0)`
over the collapsed body text. -/
def hintsWordsArr (f : DocFacts) : List (List Char) :=
  tokensOf (collapseText f.bodyTextRaw)

/-- `const words = wordsArr.length || 1` — the word-count floor. -/
def hintsWordCount (f : DocFacts) : ℕ :=
  let n := (hintsWordsArr f).length
  if n = 0 then 1 else n

/-- `const sentences = bodyText.split(/[.!?]+/).filter(...).length || 1`. -/
def hintsSentenceCount (f : DocFacts) : ℕ :=
  let n := (sentenceSegs (collapseText f.bodyTextRaw)).length
  if n = 0 then 1 else n

/-- `const syllables = wordsArr.reduce((s, w) => s + countSyllables(w), 0) || 1`. -/
def hintsSyllableCount (f : DocFacts) : ℕ :=
  let n := ((hintsWordsArr f).map (fun w => countSyllables w.asString)).sum
  if n = 0 then 1 else n

/-- `Math.round(206.835 - (1.015 * (words / sentences)) - (84.6 *
(syllables / words)))`. -/
def fleschOf (f : DocFacts) : ℤ :=
  jsRound ((206.835 : ℚ) -
    (1.015 : ℚ) * ((hintsWordCount f : ℚ) / (hintsSentenceCount f : ℚ)) -
    (84.6 : ℚ) * ((hintsSyllableCount f : ℚ) / (hintsWordCount f : ℚ)))

/-- `flesch >= 60 ? 'Easy' : flesch >= 50 ? 'Fairly easy' : flesch >= 30
? 'Difficult' : 'Very difficult'`. -/
def readabilityLabelOf (flesch : ℤ) : String :=
  if 60 ≤ flesch then "Easy"
  else if 50 ≤ flesch then "Fairly easy"
  else if 30 ≤ flesch then "Difficult"
  else "Very difficult"

/-- `const paras = $('p').toArray().map(p => text(p).trim()).filter(t =>
t.length > 0)`. -/
def hintsParas (f : DocFacts) : List (List Char) :=
  (f.paraTexts.map trimStr).filter (fun t => !t.isEmpty)

/-- Words of one paragraph: `p.split(/\s+/).filter(Boolean).length`. -/
def paraWordCount (p : List Char) : ℕ := (tokensOf p).length

/-- `computeHintsFromHtml(html, prelim)`. -/
def computeHintsFromHtml (inp : HtmlInput) (prelim : Report) : Hints :=
  let f := inp.facts
  let htmlLower := lowerStr inp.raw
  let words := hintsWordCount f
  let sentences := hintsSentenceCount f
  let syllables := hintsSyllableCount f
  let flesch := jsRound ((206.835 : ℚ) -
    (1.015 : ℚ) * ((words : ℚ) / (sentences : ℚ)) -
    (84.6 : ℚ) * ((syllables : ℚ) / (words : ℚ)))
  let title := trimStr f.titleText
  let desc := trimStr (f.descContent.getD "")
  let imgsLen := f.imgAlts.length
  let withAlt := withAltCount f.imgAlts
  let ratio : ℚ := if imgsLen ≠ 0 then (withAlt : ℚ) / (imgsLen : ℚ) else 1
  let paras := hintsParas f
  let paraCount := paras.length
  let avgWords : ℤ :=
    if paraCount ≠ 0 then
      jsRound (((paras.map paraWordCount).sum : ℚ) / (paraCount : ℚ))
    else 0
  let capMatches := entityMatches (collapseText f.bodyTextRaw)
  { foundFiles :=
      { llmsTxt := containsSub "llm.txt".data htmlLower ||
          containsSub "llms.txt".data htmlLower
        robotsTxt := containsSub "robots.txt".data htmlLower
        hreflang := relAlternateTest htmlLower }
    headingIssues := headingIssuesOf f.headingLevels
    flesch := flesch
    readabilityLabel := readabilityLabelOf flesch
    metadataQuality :=
      (if !title.isEmpty then "Title ✓" else "Title ✗") ++
      (if !desc.isEmpty then ", Description ✓" else ", Description ✗")
    semanticCount := f.semanticCount
    imagesAltRatio := (jsRound (ratio * 100) : ℚ) / 100
    ariaPresent := decide (0 < f.ariaSelCount) || containsSub "aria-".data htmlLower
    paraCount := paraCount
    avgWordsPerPara := avgWords
    contentQualityLabel :=
      if 3 ≤ paraCount ∧ 40 ≤ avgWords then "Well-structured"
      else if paraCount = 0 then "No paragraph content"
      else "Could be improved"
    jsonLdCount := prelim.jsonLdCount
    topEntities := (dedupKeepFirst (capMatches.take 15)).take 5
    hreflangCount := countOccur "hreflang".data htmlLower }

/-! ## `calculateGeoScore` -/

/-- `/city|town|district|avenue|street|road|county|area/i.test(t)`. -/
def localityTest (t : String) : Bool :=
  let l := lowerStr t
  containsSub "city".data l || containsSub "town".data l ||
  containsSub "district".data l || containsSub "avenue".data l ||
  containsSub "street".data l || containsSub "road".data l ||
  containsSub "county".data l || containsSub "area".data l

/-- `/[A-Z][a-z]{2,}/.test(e)`: an uppercase letter immediately followed
by at least two lowercase letters somewhere in `e`. -/
def hasCapRun : List Char → Bool
  | [] => false
  | a :: rest =>
    (match rest with
     | b :: c :: _ => a.isUpper && b.isLower && c.isLower
     | _ => false) || hasCapRun rest

/-- The additive breakdown and total returned by `calculateGeoScore`. -/
structure GeoScoreResult where
  GEO_SCORE : ℤ
  schemaScore : ℤ
  addressScore : ℤ
  phoneScore : ℤ
  coordsScore : ℤ
  geoMetaScore : ℤ
  hreflangScore : ℤ
  localDensityScore : ℤ
  localSignalsScore : ℤ
deriving Repr, DecidableEq

/-- `if (localOk) schemaScore = 30; else if (jsonLdCount > 0)
schemaScore = 15; else schemaScore = 0`. -/
def schemaScoreOf (prelim : Report) : ℤ :=
  if prelim.checks.localSchema.ok then 30
  else if 0 < prelim.jsonLdCount then 15 else 0

/-- `addressScore = addressInJson ? 15 : (bodyHasCity ? 6 : 0)` where
`bodyHasCity` probes `hints.topEntities` for locality keywords. -/
def addressScoreOf (prelim : Report) (hints : Hints) : ℤ :=
  if prelim.checks.localSchema.ok then 15
  else if hints.topEntities.any localityTest then 6 else 0

/-- `if (phones && phones.length > 0) phoneScore = 15`. -/
def phoneScoreOf (prelim : Report) : ℤ :=
  if 0 < prelim.geoPhones.length then 15 else 0

/-- `if (coords && coords.length > 0) coordsScore = 10`. -/
def coordsScoreOf (prelim : Report) : ℤ :=
  if 0 < prelim.geoCoords.length then 10 else 0

/-- `if (geoMeta && Object.keys(geoMeta).length > 0) geoMetaScore = 5`. -/
def geoMetaScoreOf (prelim : Report) : ℤ :=
  if 0 < prelim.geoMetaKeys.length then 5 else 0

/-- `if (hints.hreflangCount && hints.hreflangCount > 0) hreflangScore = 10`. -/
def hreflangScoreOf (hints : Hints) : ℤ :=
  if 0 < hints.hreflangCount then 10 else 0

/-- `const localMentions = (hints.topEntities || []).filter(e =>
/[A-Z][a-z]{2,}/.test(e)).length`. -/
def localMentionsOf (hints : Hints) : ℕ :=
  (hints.topEntities.filter (fun e => hasCapRun e.data)).length

/-- `if (localMentions >= 3) localDensityScore = 10; else if
(localMentions >= 1) localDensityScore = 4`. -/
def localDensityScoreOf (hints : Hints) : ℤ :=
  if 3 ≤ localMentionsOf hints then 10
  else if 1 ≤ localMentionsOf hints then 4 else 0

/-- `const signals = (llmsTxt ? 1 : 0) + (hreflangCount ? 1 : 0) +
(jsonLdCount > 0 ? 1 : 0)`. -/
def signalsOf (prelim : Report) (hints : Hints) : ℕ :=
  (if hints.foundFiles.llmsTxt then 1 else 0) +
  (if hints.hreflangCount ≠ 0 then 1 else 0) +
  (if 0 < prelim.jsonLdCount then 1 else 0)

/-- `if (signals >= 2) localSignalsScore = 5; else if (signals === 1)
localSignalsScore = 2`. -/
def localSignalsScoreOf (prelim : Report) (hints : Hints) : ℤ :=
  if 2 ≤ signalsOf prelim hints then 5
  else if signalsOf prelim hints = 1 then 2 else 0

/-- `calculateGeoScore(prelim, hints)`: the eight fixed additive
sub-scores, their sum, and `GEO_SCORE = Math.max(0, Math.min(100,
Math.round(total)))`. -/
def calculateGeoScore (prelim : Report) (hints : Hints) : GeoScoreResult :=
  let total := schemaScoreOf prelim + addressScoreOf prelim hints +
    phoneScoreOf prelim + coordsScoreOf prelim + geoMetaScoreOf prelim +
    hreflangScoreOf hints + localDensityScoreOf hints +
    localSignalsScoreOf prelim hints
  { GEO_SCORE := max 0 (min 100 (jsRound (total : ℚ)))
    schemaScore := schemaScoreOf prelim
    addressScore := addressScoreOf prelim hints
    phoneScore := phoneScoreOf prelim
    coordsScore := coordsScoreOf prelim
    geoMetaScore := geoMetaScoreOf prelim
    hreflangScore := hreflangScoreOf hints
    localDensityScore := localDensityScoreOf hints
    localSignalsScore := localSignalsScoreOf prelim hints }

/-! ## Evaluation lemmas for the rubric checks -/

theorem jsRound_ten_half : jsRound ((10 : ℚ) / 2) = 5 :=
  jsRound_eq_of _ _ (by norm_num) (by norm_num)

theorem jsRound_six_half : jsRound ((6 : ℚ) * 0.5) = 3 :=
  jsRound_eq_of _ _ (by norm_num) (by norm_num)

theorem jsRound_six_one : jsRound ((6 : ℚ) * 1) = 6 :=
  jsRound_eq_of _ _ (by norm_num) (by norm_num)

theorem checkImagesAlt_ok (f : DocFacts) :
    (checkImagesAlt f).ok =
      if f.imgAlts.length = 0 then true
      else decide ((0.8 : ℚ) ≤ imagesAltRatioOf f) := by
  unfold checkImagesAlt
  split <;> rfl

theorem checkImagesAlt_points (f : DocFacts) :
    (checkImagesAlt f).points =
      if f.imgAlts.length = 0 then 6
      else if (0.8 : ℚ) ≤ imagesAltRatioOf f then 6 else 0 := by
  unfold checkImagesAlt
  split
  · rfl
  · by_cases h : (0.8 : ℚ) ≤ imagesAltRatioOf f
    · simp only [mkCheck, if_pos h, decide_eq_true h, if_true, WEIGHTS_images_alt]
      rw [show ((6 : ℤ) : ℚ) * 1 = ((6 : ℤ) : ℚ) by norm_num, jsRound_intCast]
    · simp [mkCheck, h]

theorem checkImagesAlt_max (f : DocFacts) :
    (checkImagesAlt f).maxPoints = 6 := by
  unfold checkImagesAlt
  split <;> rfl

theorem checkLang_max (f : DocFacts) : (checkLang f).maxPoints = 5 := rfl
theorem checkCharset_max (f : DocFacts) : (checkCharset f).maxPoints = 3 := rfl
theorem checkViewport_max (f : DocFacts) : (checkViewport f).maxPoints = 4 := rfl
theorem checkTitle_max (f : DocFacts) : (checkTitle f).maxPoints = 10 := rfl
theorem checkDescription_max (f : DocFacts) : (checkDescription f).maxPoints = 10 := rfl
theorem checkH1_max (f : DocFacts) : (checkH1 f).maxPoints = 6 := rfl
theorem checkCanonical_max (f : DocFacts) : (checkCanonical f).maxPoints = 8 := rfl
theorem checkRobots_max (f : DocFacts) : (checkRobots f).maxPoints = 8 := rfl
theorem checkJsonLd_max (f : DocFacts) : (checkJsonLd f).maxPoints = 12 := rfl
theorem checkLocalSchema_max (f : DocFacts) : (checkLocalSchema f).maxPoints = 12 := rfl
theorem checkGeo_max (f : DocFacts) : (checkGeo f).maxPoints = 16 := rfl

theorem checkLang_points_le (f : DocFacts) : (checkLang f).points ≤ 5 :=
  mkCheck_points_le _ _ _ le_rfl (by decide)

theorem checkCharset_points_le (f : DocFacts) : (checkCharset f).points ≤ 3 :=
  mkCheck_points_le _ _ _ le_rfl (by decide)

theorem checkViewport_points_le (f : DocFacts) : (checkViewport f).points ≤ 4 :=
  mkCheck_points_le _ _ _ le_rfl (by decide)

theorem checkTitle_points_le (f : DocFacts) : (checkTitle f).points ≤ 10 :=
  mkCheck_points_le _ _ _ le_rfl (by decide)

theorem checkDescription_points_le (f : DocFacts) :
    (checkDescription f).points ≤ 10 := by
  unfold checkDescription
  refine mkCheck_points_le _ _ _ ?_ (by decide)
  split
  · exact le_rfl
  · rw [WEIGHTS_description, show ((10 : ℤ) : ℚ) / 2 = (10 : ℚ) / 2 by norm_num,
      jsRound_ten_half]
    norm_num

theorem checkH1_points_le (f : DocFacts) : (checkH1 f).points ≤ 6 := by
  unfold checkH1
  refine mkCheck_points_le _ _ _ ?_ (by decide)
  split
  · exact le_rfl
  · rw [WEIGHTS_h1, show ((6 : ℤ) : ℚ) * 0.5 = (6 : ℚ) * 0.5 by norm_num,
      jsRound_six_half]
    norm_num

theorem checkCanonical_points_le (f : DocFacts) : (checkCanonical f).points ≤ 8 :=
  mkCheck_points_le _ _ _ le_rfl (by decide)

theorem checkRobots_points_le (f : DocFacts) : (checkRobots f).points ≤ 8 :=
  mkCheck_points_le _ _ _ le_rfl (by decide)

theorem checkJsonLd_points_le (f : DocFacts) : (checkJsonLd f).points ≤ 12 :=
  mkCheck_points_le _ _ _ le_rfl (by decide)

theorem checkLocalSchema_points_le (f : DocFacts) :
    (checkLocalSchema f).points ≤ 12 :=
  mkCheck_points_le _ _ _ le_rfl (by decide)

theorem checkImagesAlt_points_le (f : DocFacts) :
    (checkImagesAlt f).points ≤ 6 := by
  rw [checkImagesAlt_points]
  split
  · exact le_rfl
  · split <;> norm_num

theorem checkGeo_points_le (f : DocFacts) : (checkGeo f).points ≤ 16 :=
  mkCheck_points_le _ _ _ le_rfl (by decide)

/-! ### Projections of `analyzeHtml` -/

theorem analyzeHtml_total_awarded (inp : HtmlInput) :
    (analyzeHtml inp).total_awarded =
      (checkLang inp.facts).points + (checkCharset inp.facts).points +
      (checkViewport inp.facts).points + (checkTitle inp.facts).points +
      (checkDescription inp.facts).points + (checkH1 inp.facts).points +
      (checkCanonical inp.facts).points + (checkRobots inp.facts).points +
      (checkJsonLd inp.facts).points + (checkLocalSchema inp.facts).points +
      (checkImagesAlt inp.facts).points + (checkGeo inp.facts).points := rfl

theorem analyzeHtml_total_possible (inp : HtmlInput) :
    (analyzeHtml inp).total_possible =
      (checkLang inp.facts).maxPoints + (checkCharset inp.facts).maxPoints +
      (checkViewport inp.facts).maxPoints + (checkTitle inp.facts).maxPoints +
      (checkDescription inp.facts).maxPoints + (checkH1 inp.facts).maxPoints +
      (checkCanonical inp.facts).maxPoints + (checkRobots inp.facts).maxPoints +
      (checkJsonLd inp.facts).maxPoints + (checkLocalSchema inp.facts).maxPoints +
      (checkImagesAlt inp.facts).maxPoints + (checkGeo inp.facts).maxPoints := rfl

theorem analyzeHtml_total_possible_100 (inp : HtmlInput) :
    (analyzeHtml inp).total_possible = 100 := by
  rw [analyzeHtml_total_possible, checkLang_max, checkCharset_max,
    checkViewport_max, checkTitle_max, checkDescription_max, checkH1_max,
    checkCanonical_max, checkRobots_max, checkJsonLd_max, checkLocalSchema_max,
    checkImagesAlt_max, checkGeo_max]
  norm_num

theorem analyzeHtml_score_def (inp : HtmlInput) :
    (analyzeHtml inp).score =
      (jsRound (((analyzeHtml inp).total_awarded : ℚ) /
        (((if (analyzeHtml inp).total_possible = 0 then 1
           else (analyzeHtml inp).total_possible) : ℤ) : ℚ) * 10000) : ℚ) / 100 := rfl

theorem analyzeHtml_total_awarded_le_100 (inp : HtmlInput) :
    (analyzeHtml inp).total_awarded ≤ 100 := by
  rw [analyzeHtml_total_awarded]
  have h1 := checkLang_points_le inp.facts
  have h2 := checkCharset_points_le inp.facts
  have h3 := checkViewport_points_le inp.facts
  have h4 := checkTitle_points_le inp.facts
  have h5 := checkDescription_points_le inp.facts
  have h6 := checkH1_points_le inp.facts
  have h7 := checkCanonical_points_le inp.facts
  have h8 := checkRobots_points_le inp.facts
  have h9 := checkJsonLd_points_le inp.facts
  have h10 := checkLocalSchema_points_le inp.facts
  have h11 := checkImagesAlt_points_le inp.facts
  have h12 := checkGeo_points_le inp.facts
  linarith

/-- **C1** — For every input, the Rubric Report satisfies
`total_awarded ≤ total_possible`, `total_possible` is the sum of the
twelve fixed per-key weights, and the summary score is
`round(total_awarded / total_possible * 10000) / 100`. -/
theorem c1_rubric_invariants (inp : HtmlInput) :
    (analyzeHtml inp).total_awarded ≤ (analyzeHtml inp).total_possible ∧
    (analyzeHtml inp).total_possible =
      WEIGHTS "lang" + WEIGHTS "charset" + WEIGHTS "viewport" +
      WEIGHTS "title" + WEIGHTS "description" + WEIGHTS "h1" +
      WEIGHTS "canonical" + WEIGHTS "robots" + WEIGHTS "json_ld" +
      WEIGHTS "local_schema" + WEIGHTS "images_alt" + WEIGHTS "geo" ∧
    (analyzeHtml inp).score =
      (jsRound (((analyzeHtml inp).total_awarded : ℚ) /
        ((analyzeHtml inp).total_possible : ℚ) * 10000) : ℚ) / 100 := by
  have htp := analyzeHtml_total_possible_100 inp
  refine ⟨?_, ?_, ?_⟩
  · rw [htp]; exact analyzeHtml_total_awarded_le_100 inp
  · rw [htp]; decide
  · rw [analyzeHtml_score_def, htp]
    norm_num

/-! ## Concrete inputs for the worked examples -/

/-- Facts cheerio extracts from the spec's §8 example page:
`<html lang="en">`, `<meta charset="utf-8">`, no viewport, title
`"Home"`, no description, one `<h1>Welcome</h1>`, no canonical, no
robots meta, no JSON-LD, two images both with alt text, no geo
signals. -/
def exampleFacts : DocFacts :=
  { langAttr := some "en"
    charsetAttr := some "utf-8"
    viewportContent := none
    titleText := "Home"
    descContent := none
    h1Count := 1
    canonicalHref := none
    robotsContent := none
    ldBlocks := []
    metaTags := [{ name := none, content := none }]
    imgAlts := [some "first photo", some "second photo"]
    bodyTextRaw := "Welcome"
    headingLevels := [1]
    paraTexts := []
    semanticCount := 0
    ariaSelCount := 0 }

def exampleInput : HtmlInput :=
  { raw := "<html lang=\"en\"><head><meta charset=\"utf-8\"><title>Home</title></head><body><h1>Welcome</h1><img src=\"a.png\" alt=\"first photo\"><img src=\"b.png\" alt=\"second photo\"></body></html>"
    facts := exampleFacts }

theorem exampleFacts_imagesAlt_points :
    (checkImagesAlt exampleFacts).points = 6 := by
  rw [checkImagesAlt_points]
  have hwc : withAltCount exampleFacts.imgAlts = 2 := by decide
  have hlen : exampleFacts.imgAlts.length = 2 := by decide
  rw [imagesAltRatioOf, hwc, hlen]
  norm_num

/-- **C2 counterexample** — on the spec's example input the code yields
`total_possible = 100` (the twelve weights sum to 100, not 87), refuting
the claimed `total_possible = 87` and `score ≈ 32.18`. -/
theorem c2_total_possible_not_87 :
    (analyzeHtml exampleInput).total_possible = 100 ∧
    ¬((analyzeHtml exampleInput).total_possible = 87 ∧
      (analyzeHtml exampleInput).score = 3218 / 100) := by
  have h := analyzeHtml_total_possible_100 exampleInput
  exact ⟨h, fun hc => by rw [h] at hc; exact absurd hc.1 (by decide)⟩

/-- **C2 (amended)** — on the example input `analyzeHtml` awards lang 5,
charset 3, h1 6, robots 8, images_alt 6 and 0 for all other checks, so
`total_awarded = 28`, `total_possible = 100` (the sum of all twelve
weights) and the score is exactly 28. -/
theorem c2_example_report :
    (analyzeHtml exampleInput).checks.lang.points = 5 ∧
    (analyzeHtml exampleInput).checks.charset.points = 3 ∧
    (analyzeHtml exampleInput).checks.viewport.points = 0 ∧
    (analyzeHtml exampleInput).checks.title.points = 0 ∧
    (analyzeHtml exampleInput).checks.description.points = 0 ∧
    (analyzeHtml exampleInput).checks.h1.points = 6 ∧
    (analyzeHtml exampleInput).checks.canonical.points = 0 ∧
    (analyzeHtml exampleInput).checks.robots.points = 8 ∧
    (analyzeHtml exampleInput).checks.jsonLd.points = 0 ∧
    (analyzeHtml exampleInput).checks.localSchema.points = 0 ∧
    (analyzeHtml exampleInput).checks.imagesAlt.points = 6 ∧
    (analyzeHtml exampleInput).checks.geo.points = 0 ∧
    (analyzeHtml exampleInput).total_awarded = 28 ∧
    (analyzeHtml exampleInput).total_possible = 100 ∧
    (analyzeHtml exampleInput).score = 28 := by
  have himg : (analyzeHtml exampleInput).checks.imagesAlt.points = 6 :=
    exampleFacts_imagesAlt_points
  have hta : (analyzeHtml exampleInput).total_awarded = 28 := by
    rw [analyzeHtml_total_awarded]
    have h1 : (checkLang exampleInput.facts).points = 5 := by decide
    have h2 : (checkCharset exampleInput.facts).points = 3 := by decide
    have h3 : (checkViewport exampleInput.facts).points = 0 := by decide
    have h4 : (checkTitle exampleInput.facts).points = 0 := by decide
    have h5 : (checkDescription exampleInput.facts).points = 0 := by decide
    have h6 : (checkH1 exampleInput.facts).points = 6 := by decide
    have h7 : (checkCanonical exampleInput.facts).points = 0 := by decide
    have h8 : (checkRobots exampleInput.facts).points = 8 := by decide
    have h9 : (checkJsonLd exampleInput.facts).points = 0 := by decide
    have h10 : (checkLocalSchema exampleInput.facts).points = 0 := by decide
    have h11 : (checkImagesAlt exampleInput.facts).points = 6 := himg
    have h12 : (checkGeo exampleInput.facts).points = 0 := by decide
    rw [h1, h2, h3, h4, h5, h6, h7, h8, h9, h10, h11, h12]
    norm_num
  have htp := analyzeHtml_total_possible_100 exampleInput
  refine ⟨by decide, by decide, by decide, by decide, by decide, by decide,
    by decide, by decide, by decide, by decide, himg, by decide, hta, htp, ?_⟩
  rw [analyzeHtml_score_def, hta, htp]
  norm_num
  rw [show (2800 : ℚ) = ((2800 : ℤ) : ℚ) by norm_num, jsRound_intCast]
  norm_num

/-- Facts with two images of which only one carries alt text
(alt ratio 0.5). -/
def halfAltFacts : DocFacts :=
  { exampleFacts with imgAlts := [some "only photo", none] }

def halfAltInput : HtmlInput := { raw := "", facts := halfAltFacts }

/-- **C3 counterexample** — with 2 images and 1 alt text (ratio 0.5 <
0.8) the claim predicts `round(6 × 0.5) = 3` awarded points, but
`addCheck` awards `ok ? pointsIfOk : 0`, so the failing check gets 0. -/
theorem c3_failing_award_not_scaled :
    (analyzeHtml halfAltInput).checks.imagesAlt.points ≠
      jsRound ((WEIGHTS "images_alt" : ℚ) * imagesAltRatioOf halfAltInput.facts) := by
  have hwc : withAltCount halfAltInput.facts.imgAlts = 1 := by decide
  have hlen : halfAltInput.facts.imgAlts.length = 2 := by decide
  have hratio : imagesAltRatioOf halfAltInput.facts = 1 / 2 := by
    rw [imagesAltRatioOf, hwc, hlen]; norm_num
  have hpts : (analyzeHtml halfAltInput).checks.imagesAlt.points = 0 := by
    have := checkImagesAlt_points halfAltInput.facts
    rw [show (analyzeHtml halfAltInput).checks.imagesAlt =
      checkImagesAlt halfAltInput.facts from rfl, this, if_neg (by decide),
      hratio, if_neg (by norm_num)]
  rw [hpts, WEIGHTS_images_alt, hratio,
    show ((6 : ℤ) : ℚ) * (1 / 2) = (3 : ℤ) + 1 / 2 - 1 / 2 by norm_num]
  rw [show ((3 : ℤ) : ℚ) + 1 / 2 - 1 / 2 = ((3 : ℤ) : ℚ) by ring, jsRound_intCast]
  decide

/-- **C3 (amended)** — the images_alt check passes at full weight with
zero images or ratio ≥ 0.8; with ratio < 0.8 it fails and is awarded 0
(the proportional `round(weight × ratio)` candidate is computed as
`pointsIfOk` but discarded because failing checks always award 0). -/
theorem c3_images_alt_policy (inp : HtmlInput) :
    (analyzeHtml inp).checks.imagesAlt.ok =
      (if inp.facts.imgAlts.length = 0 then true
       else decide ((0.8 : ℚ) ≤ imagesAltRatioOf inp.facts)) ∧
    (analyzeHtml inp).checks.imagesAlt.points =
      (if inp.facts.imgAlts.length = 0 then WEIGHTS "images_alt"
       else if (0.8 : ℚ) ≤ imagesAltRatioOf inp.facts then WEIGHTS "images_alt"
       else 0) := by
  rw [show (analyzeHtml inp).checks.imagesAlt = checkImagesAlt inp.facts from rfl,
    WEIGHTS_images_alt]
  exact ⟨checkImagesAlt_ok inp.facts, checkImagesAlt_points inp.facts⟩

/-- Facts cheerio extracts from the empty string: every query returns
nothing (no elements, empty body text). -/
def emptyDocFacts : DocFacts :=
  { langAttr := none
    charsetAttr := none
    viewportContent := none
    titleText := ""
    descContent := none
    h1Count := 0
    canonicalHref := none
    robotsContent := none
    ldBlocks := []
    metaTags := []
    imgAlts := []
    bodyTextRaw := ""
    headingLevels := []
    paraTexts := []
    semanticCount := 0
    ariaSelCount := 0 }

def emptyInput : HtmlInput := { raw := "", facts := emptyDocFacts }

/-- **C4** — the empty string still yields a fully evaluated report:
every check fails except robots (the empty directive does not contain
"noindex") and images_alt (zero images), both passing at full weight,
and the readability word count is floored at 1 (so the `syllables/words`
division is by 1, never by 0). -/
theorem c4_empty_input_report :
    (analyzeHtml emptyInput).checks.lang.ok = false ∧
    (analyzeHtml emptyInput).checks.charset.ok = false ∧
    (analyzeHtml emptyInput).checks.viewport.ok = false ∧
    (analyzeHtml emptyInput).checks.title.ok = false ∧
    (analyzeHtml emptyInput).checks.description.ok = false ∧
    (analyzeHtml emptyInput).checks.h1.ok = false ∧
    (analyzeHtml emptyInput).checks.canonical.ok = false ∧
    (analyzeHtml emptyInput).checks.jsonLd.ok = false ∧
    (analyzeHtml emptyInput).checks.localSchema.ok = false ∧
    (analyzeHtml emptyInput).checks.geo.ok = false ∧
    (analyzeHtml emptyInput).checks.robots.ok = true ∧
    (analyzeHtml emptyInput).checks.robots.points = 8 ∧
    (analyzeHtml emptyInput).checks.imagesAlt.ok = true ∧
    (analyzeHtml emptyInput).checks.imagesAlt.points = 6 ∧
    hintsWordCount emptyDocFacts = 1 ∧
    (computeHintsFromHtml emptyInput (analyzeHtml emptyInput)).flesch = 121 := by
  refine ⟨by decide, by decide, by decide, by decide, by decide, by decide,
    by decide, by decide, by decide, by decide, by decide, by decide,
    by decide, by decide, by decide, ?_⟩
  rw [show (computeHintsFromHtml emptyInput (analyzeHtml emptyInput)).flesch =
    fleschOf emptyDocFacts from rfl]
  unfold fleschOf
  rw [show hintsWordCount emptyDocFacts = 1 from by decide,
    show hintsSentenceCount emptyDocFacts = 1 from by decide,
    show hintsSyllableCount emptyDocFacts = 1 from by decide]
  exact jsRound_eq_of _ _ (by norm_num) (by norm_num)

/-- **C5** — the description check passes exactly when the trimmed
meta-description length is ≥ 20; a passing check is awarded the full
weight 10 when the length lies within 50–160 and `round(10 / 2) = 5`
otherwise, and a failing check is awarded 0. -/
theorem c5_description_policy (inp : HtmlInput) :
    (analyzeHtml inp).checks.description.ok =
      decide (20 ≤ (descTrimmed inp.facts).length) ∧
    (analyzeHtml inp).checks.description.points =
      (if 20 ≤ (descTrimmed inp.facts).length then
        (if 50 ≤ (descTrimmed inp.facts).length ∧
            (descTrimmed inp.facts).length ≤ 160 then 10 else 5)
       else 0) := by
  rw [show (analyzeHtml inp).checks.description = checkDescription inp.facts
    from rfl]
  unfold checkDescription mkCheck
  constructor
  · rfl
  · simp only [WEIGHTS_description]
    by_cases h20 : 20 ≤ (descTrimmed inp.facts).length
    · rw [if_pos (by exact decide_eq_true h20), if_pos h20]
      by_cases hband : 50 ≤ (descTrimmed inp.facts).length ∧
          (descTrimmed inp.facts).length ≤ 160
      · rw [if_pos hband, if_pos hband]
      · rw [if_neg hband, if_neg hband,
          show ((10 : ℤ) : ℚ) / 2 = (10 : ℚ) / 2 by norm_num, jsRound_ten_half]
    · rw [if_neg (by simpa using h20), if_neg h20]

/-! ## C6: the GEO score is a bounded integer sum -/

theorem schemaScoreOf_bounds (p : Report) :
    0 ≤ schemaScoreOf p ∧ schemaScoreOf p ≤ 30 := by
  unfold schemaScoreOf; split_ifs <;> norm_num

theorem addressScoreOf_bounds (p : Report) (h : Hints) :
    0 ≤ addressScoreOf p h ∧ addressScoreOf p h ≤ 15 := by
  unfold addressScoreOf; split_ifs <;> norm_num

theorem phoneScoreOf_bounds (p : Report) :
    0 ≤ phoneScoreOf p ∧ phoneScoreOf p ≤ 15 := by
  unfold phoneScoreOf; split_ifs <;> norm_num

theorem coordsScoreOf_bounds (p : Report) :
    0 ≤ coordsScoreOf p ∧ coordsScoreOf p ≤ 10 := by
  unfold coordsScoreOf; split_ifs <;> norm_num

theorem geoMetaScoreOf_bounds (p : Report) :
    0 ≤ geoMetaScoreOf p ∧ geoMetaScoreOf p ≤ 5 := by
  unfold geoMetaScoreOf; split_ifs <;> norm_num

theorem hreflangScoreOf_bounds (h : Hints) :
    0 ≤ hreflangScoreOf h ∧ hreflangScoreOf h ≤ 10 := by
  unfold hreflangScoreOf; split_ifs <;> norm_num

theorem localDensityScoreOf_bounds (h : Hints) :
    0 ≤ localDensityScoreOf h ∧ localDensityScoreOf h ≤ 10 := by
  unfold localDensityScoreOf; split_ifs <;> norm_num

theorem localSignalsScoreOf_bounds (p : Report) (h : Hints) :
    0 ≤ localSignalsScoreOf p h ∧ localSignalsScoreOf p h ≤ 5 := by
  unfold localSignalsScoreOf; split_ifs <;> norm_num

/-- **C6** — for every Rubric Report and hints input, `GEO_SCORE` is an
integer in [0, 100]; the `Math.max(0, Math.min(100, Math.round(total)))`
clamp-and-round is the identity here because the eight sub-scores are
non-negative and sum to at most 100, so `GEO_SCORE` equals the plain sum
of the breakdown. -/
theorem c6_geo_score_bounded (p : Report) (h : Hints) :
    0 ≤ (calculateGeoScore p h).GEO_SCORE ∧
    (calculateGeoScore p h).GEO_SCORE ≤ 100 ∧
    (calculateGeoScore p h).GEO_SCORE =
      (calculateGeoScore p h).schemaScore + (calculateGeoScore p h).addressScore +
      (calculateGeoScore p h).phoneScore + (calculateGeoScore p h).coordsScore +
      (calculateGeoScore p h).geoMetaScore + (calculateGeoScore p h).hreflangScore +
      (calculateGeoScore p h).localDensityScore +
      (calculateGeoScore p h).localSignalsScore := by
  obtain ⟨b1l, b1r⟩ := schemaScoreOf_bounds p
  obtain ⟨b2l, b2r⟩ := addressScoreOf_bounds p h
  obtain ⟨b3l, b3r⟩ := phoneScoreOf_bounds p
  obtain ⟨b4l, b4r⟩ := coordsScoreOf_bounds p
  obtain ⟨b5l, b5r⟩ := geoMetaScoreOf_bounds p
  obtain ⟨b6l, b6r⟩ := hreflangScoreOf_bounds h
  obtain ⟨b7l, b7r⟩ := localDensityScoreOf_bounds h
  obtain ⟨b8l, b8r⟩ := localSignalsScoreOf_bounds p h
  have hG : (calculateGeoScore p h).GEO_SCORE =
      max 0 (min 100 (jsRound ((schemaScoreOf p + addressScoreOf p h +
        phoneScoreOf p + coordsScoreOf p + geoMetaScoreOf p +
        hreflangScoreOf h + localDensityScoreOf h +
        localSignalsScoreOf p h : ℤ) : ℚ))) := rfl
  rw [hG, jsRound_intCast]
  have hle : schemaScoreOf p + addressScoreOf p h + phoneScoreOf p +
      coordsScoreOf p + geoMetaScoreOf p + hreflangScoreOf h +
      localDensityScoreOf h + localSignalsScoreOf p h ≤ 100 := by linarith
  have hge : 0 ≤ schemaScoreOf p + addressScoreOf p h + phoneScoreOf p +
      coordsScoreOf p + geoMetaScoreOf p + hreflangScoreOf h +
      localDensityScoreOf h + localSignalsScoreOf p h := by linarith
  rw [min_eq_right hle, max_eq_right hge]
  exact ⟨hge, hle, rfl⟩

/-! ## C7: malformed JSON-LD sentinels -/

theorem ldNodes_length_eq (blocks : List LdBlock) :
    (blocks.filterMap LdBlock.toNode).length =
      (blocks.filter (fun b => !b.isBlank)).length := by
  induction blocks with
  | nil => rfl
  | cons b rest ih =>
    cases b <;> simp [LdBlock.toNode, LdBlock.isBlank, ih]

theorem hasLocal_ignores_malformed (blocks : List LdBlock) :
    listAnyE nodeLocal
        ((blocks.filter (fun b => !b.isMalformed)).filterMap LdBlock.toNode) =
      listAnyE nodeLocal (blocks.filterMap LdBlock.toNode) := by
  induction blocks with
  | nil => rfl
  | cons b rest ih =>
    cases b with
    | blank => exact ih
    | malformed =>
      show listAnyE nodeLocal
          ((rest.filter (fun b => !b.isMalformed)).filterMap LdBlock.toNode) =
        listAnyE nodeLocal (LdNode.invalid :: rest.filterMap LdBlock.toNode)
      rw [ih]
      cases h : listAnyE nodeLocal (rest.filterMap LdBlock.toNode) with
      | error e => simp [listAnyE, nodeLocal, h]
      | ok restb => simp [listAnyE, nodeLocal, h]
    | wellFormed v =>
      show listAnyE nodeLocal (LdNode.parsed v :: _) =
        listAnyE nodeLocal (LdNode.parsed v :: _)
      simp only [listAnyE, ih]

/-- The same input with the malformed JSON-LD blocks removed. -/
def dropMalformedBlocks (inp : HtmlInput) : HtmlInput :=
  { inp with facts :=
      { inp.facts with
        ldBlocks := inp.facts.ldBlocks.filter (fun b => !b.isMalformed) } }

/-- Facts extracted from a document whose only JSON-LD block holds the
well-formed JSON text `[null]` — `JSON.parse` succeeds and the array
`[null]` is pushed into `jsonLdNodes`. -/
def nullElementFacts : DocFacts :=
  { langAttr := none
    charsetAttr := none
    viewportContent := none
    titleText := ""
    descContent := none
    h1Count := 0
    canonicalHref := none
    robotsContent := none
    ldBlocks := [.wellFormed (.jarr [.jnull])]
    metaTags := []
    imgAlts := []
    bodyTextRaw := "[null]"
    headingLevels := []
    paraTexts := []
    semanticCount := 0
    ariaSelCount := 0 }

def nullElementInput : HtmlInput :=
  { raw := "<script type=\"application/ld+json\">[null]</script>"
    facts := nullElementFacts }

/-- **C7 counterexample** — `analyzeHtml` is *not* exception-free: on a
document whose JSON-LD block is the well-formed text `[null]`, the
`local_schema` loop dereferences the `null` array element
(`n['@type']`), raising an uncaught `TypeError`, so the run aborts with
an error instead of returning a report. -/
theorem c7_null_element_raises :
    analyzeHtmlE nullElementInput = .error JsError.typeError := rfl

/-- **C7 (amended)** — `analyzeHtml` can raise: a well-formed JSON-LD
block parsing to an array with a `null` element throws an uncaught
`TypeError` in the `local_schema` loop (the `try`/`catch` guards only
`JSON.parse`).  On every run that completes, the sentinel behaviour is
as claimed: each non-blank block whose content fails to parse is
recorded as the `'invalid-json'` sentinel, which counts toward the
structured-data existence count driving the `json_ld` check but is
excluded from the type/field inspection of the `local_schema` check
(removing the malformed blocks leaves that check unchanged). -/
theorem c7_sentinel_when_no_raise (inp : HtmlInput) (r : Report)
    (h : analyzeHtmlE inp = .ok r) :
    r = analyzeHtml inp ∧
    r.jsonLdCount =
      (inp.facts.ldBlocks.filter (fun b => !b.isBlank)).length ∧
    r.checks.jsonLd.ok = decide (0 < r.jsonLdCount) ∧
    (analyzeHtml (dropMalformedBlocks inp)).checks.localSchema =
      r.checks.localSchema := by
  have hr : r = analyzeHtml inp := by
    unfold analyzeHtmlE at h
    cases hE : hasLocalE inp.facts with
    | error e => rw [hE] at h; exact absurd h (by simp)
    | ok b => rw [hE] at h; exact (Except.ok.injEq _ _ ▸ h.symm : _)
  subst hr
  refine ⟨rfl, ?_, rfl, ?_⟩
  · rw [show (analyzeHtml inp).jsonLdCount = (jsonLdNodesOf inp.facts).length
      from rfl]
    exact ldNodes_length_eq inp.facts.ldBlocks
  · rw [show (analyzeHtml (dropMalformedBlocks inp)).checks.localSchema =
      checkLocalSchema (dropMalformedBlocks inp).facts from rfl,
      show (analyzeHtml inp).checks.localSchema = checkLocalSchema inp.facts
      from rfl]
    unfold checkLocalSchema hasLocalOf hasLocalE jsonLdNodesOf
    rw [show (dropMalformedBlocks inp).facts.ldBlocks =
      inp.facts.ldBlocks.filter (fun b => !b.isMalformed) from rfl,
      hasLocal_ignores_malformed]

theorem c7_sentinel_when_no_raise_witness :
    analyzeHtml exampleInput = analyzeHtml exampleInput ∧
    (analyzeHtml exampleInput).jsonLdCount =
      (exampleInput.facts.ldBlocks.filter (fun b => !b.isBlank)).length ∧
    (analyzeHtml exampleInput).checks.jsonLd.ok =
      decide (0 < (analyzeHtml exampleInput).jsonLdCount) ∧
    (analyzeHtml (dropMalformedBlocks exampleInput)).checks.localSchema =
      (analyzeHtml exampleInput).checks.localSchema :=
  c7_sentinel_when_no_raise exampleInput (analyzeHtml exampleInput) rfl

/-! ## C8: determinism of the pure pipeline -/

/-- **C8** — the scoring pipeline reads nothing but its input: both
`analyzeHtml` and `computeHintsFromHtml` (the latter applied to the
former's report, with no enrichment call) are functions of the input
document alone, so two runs on equal inputs produce equal Rubric Reports
and equal Heuristic Metrics. -/
theorem c8_pipeline_deterministic (a b : HtmlInput) (hab : a = b) :
    analyzeHtml a = analyzeHtml b ∧
    computeHintsFromHtml a (analyzeHtml a) =
      computeHintsFromHtml b (analyzeHtml b) := by
  subst hab
  exact ⟨rfl, rfl⟩

theorem c8_pipeline_deterministic_witness :
    analyzeHtml emptyInput = analyzeHtml emptyInput ∧
    computeHintsFromHtml emptyInput (analyzeHtml emptyInput) =
      computeHintsFromHtml emptyInput (analyzeHtml emptyInput) :=
  c8_pipeline_deterministic emptyInput emptyInput rfl

/-! ## C9: the syllable counter -/

/-- **C9 counterexample** — a whitespace-delimited token with no letters
(here `"123"`) is cleaned to the empty string and `countSyllables`
returns 0, refuting "at least one syllable per word". -/
theorem c9_letterless_token_zero : ¬(1 ≤ countSyllables "123") := by decide

/-- **C9 (amended)** — for every word whose cleaned form (lowercased,
letters only) is non-empty, `countSyllables` counts vowel-group
transitions, applies the trailing-"e" decrement (floored at one), and
returns at least one syllable; tokens with no letters return 0. -/
theorem c9_syllables_floor (w : String) (hne : cleanWord w ≠ []) :
    countSyllables w =
      (if (cleanWord w).getLast? = some 'e' then
        max 1 (vowelGroups (cleanWord w) - 1)
       else max 1 (vowelGroups (cleanWord w))) ∧
    1 ≤ countSyllables w := by
  have hval : countSyllables w =
      (if (cleanWord w).getLast? = some 'e' then
        max 1 (vowelGroups (cleanWord w) - 1)
       else max 1 (vowelGroups (cleanWord w))) := by
    unfold countSyllables
    rw [if_neg (by simpa [List.isEmpty_iff] using hne)]
    rw [syllLoop_false_eq_vowelGroups]
    dsimp only
    by_cases hb : ((cleanWord w).getLast? == some 'e') = true
    · have he : (cleanWord w).getLast? = some 'e' := by simpa using hb
      rw [if_pos hb, if_pos he,
        if_neg (show ¬(max 1 (vowelGroups (cleanWord w) - 1) = 0) by omega)]
    · have he : ¬((cleanWord w).getLast? = some 'e') := by simpa using hb
      rw [if_neg hb, if_neg he]
      rcases Nat.eq_zero_or_pos (vowelGroups (cleanWord w)) with h0 | hpos
      · rw [h0, if_pos rfl]
        omega
      · rw [if_neg (by omega)]
        omega
  refine ⟨hval, ?_⟩
  rw [hval]
  split <;> omega

theorem c9_syllables_floor_witness :
    cleanWord "the" ≠ [] ∧
    (countSyllables "the" =
      (if (cleanWord "the").getLast? = some 'e' then
        max 1 (vowelGroups (cleanWord "the") - 1)
       else max 1 (vowelGroups (cleanWord "the"))) ∧
     1 ≤ countSyllables "the") :=
  ⟨by decide, c9_syllables_floor "the" (by decide)⟩

/-! ## C10: the hreflang sub-score is a raw substring probe -/

/-- **C10** — the alternate-language sub-score equals 10 exactly when
the substring "hreflang" occurs anywhere in the lowercased raw HTML
(`hreflangCount` is a whole-document occurrence count, indifferent to
whether the occurrence sits in a link element, body text or a comment),
and 0 otherwise. -/
theorem c10_hreflang_substring (inp : HtmlInput) (p : Report) :
    (calculateGeoScore p (computeHintsFromHtml inp p)).hreflangScore =
      (if containsSub "hreflang".data (lowerStr inp.raw) = true then 10 else 0) := by
  rw [show (calculateGeoScore p (computeHintsFromHtml inp p)).hreflangScore =
    hreflangScoreOf (computeHintsFromHtml inp p) from rfl]
  unfold hreflangScoreOf
  rw [show (computeHintsFromHtml inp p).hreflangCount =
    countOccur "hreflang".data (lowerStr inp.raw) from rfl]
  have hiff := countOccur_pos_iff "hreflang".data (lowerStr inp.raw) (by decide)
  by_cases hsub : containsSub "hreflang".data (lowerStr inp.raw) = true
  · rw [if_pos (hiff.mpr hsub), if_pos hsub]
  · rw [if_neg (fun hpos => hsub (hiff.mp hpos)), if_neg hsub]

end GeoAudit
